import Mathlib

/-!
Shallow embedding of `src/grader.py` (rbiter): a LaTeX answer grader built on
sympy.  The external collaborators (the LaTeX parser `parse_latex`, sympy's
`N`, `simplify`, and comparisons involving a symbolic operand) are modelled as
an `Oracle` of deterministic functions; each external call also carries a
wall-clock cost so that the `signal.alarm`-based `time_limit` context manager
can be modelled: the alarm interrupts an in-progress external call, raising a
`TimeoutException` at that point in the Python control flow.

Python exceptions are modelled by `PyExc`; every constructor is a subclass of
Python's `Exception`, so an `except Exception` block catches all of them,
while `except TimeoutException` catches only `PyExc.timeoutExc`.
-/

namespace Rbiter

/-- Python exception values relevant to `grader.py`.  All constructors model
subclasses of `Exception`: `timeoutExc` is the `TimeoutException` raised by
the `time_limit` signal handler, `runtimeError` and `lookupError` are the
exceptions `grader.py` raises itself, and `otherExc` stands for any other
exception escaping an external sympy call. -/
inductive PyExc where
  | timeoutExc : PyExc
  | runtimeError : String → PyExc
  | lookupError : String → PyExc
  | otherExc : PyExc
deriving DecidableEq, Repr

instance {ε α : Type} [DecidableEq ε] [DecidableEq α] :
    DecidableEq (Except ε α) := fun a b =>
  match a, b with
  | Except.ok x, Except.ok y => decidable_of_iff (x = y) (by simp)
  | Except.error x, Except.error y => decidable_of_iff (x = y) (by simp)
  | Except.ok _, Except.error _ => isFalse (by simp)
  | Except.error _, Except.ok _ => isFalse (by simp)

/-- Opaque parse tree produced by the external `parse_latex`. -/
structure Tree where
  id : Nat
deriving DecidableEq, Repr

/-- The value returned by `evaluate_latex`: a sympy number (numeric mode,
modelled as a rational since sympy evaluates to explicit arbitrary-precision
numbers) or a parse tree (symbolic mode). -/
inductive Value where
  | num : ℚ → Value
  | sym : Tree → Value
deriving DecidableEq, Repr

/-- One external (sympy) call: its wall-clock duration in seconds and its
outcome (a return value, or a raised exception). -/
structure ExtCall (α : Type) where
  cost : Nat
  result : Except PyExc α
deriving Repr

/-- The deterministic external collaborators of `grader.py`:
`parse` is `parse_latex`, `numEval t n` is `N(t, n)`, `zeroTest t v` is
`simplify(t - v) == 0` (symbolic-mode comparison), and `mixedAbsLe q t τ` is
`Abs(q - t) <= τ` for the (unreachable from `comp_exp_list`) case where the
reference argument of a numeric comparison is a symbolic tree. -/
structure Oracle where
  parse : String → ExtCall Tree
  numEval : Tree → Nat → ExtCall ℚ
  zeroTest : Tree → Value → ExtCall Bool
  mixedAbsLe : ℚ → Tree → ℚ → ExtCall Bool

/-- Run one external call at time `elapsed` (seconds since the current
candidate's `signal.alarm` was armed).  With no alarm armed (`limit = none`,
as during the reference evaluation) the call just runs.  With an alarm armed
at `L` seconds, a call still running strictly past the alarm instant is
interrupted: a `TimeoutException` is raised at this point of the control flow
instead of the call returning. -/
def runCall (limit : Option Nat) (elapsed : Nat) (c : ExtCall α) :
    Except PyExc α × Nat :=
  match limit with
  | none => (c.result, elapsed + c.cost)
  | some L =>
      if L < elapsed + c.cost then (Except.error PyExc.timeoutExc, elapsed + c.cost)
      else (c.result, elapsed + c.cost)

/-- `evaluate_latex(exp, mode='numeric', maxn)` body: `parse_latex(exp)` then
`N(sympy_exp, maxn)`, with any exception from either call (including a
`TimeoutException` raised by the alarm during the call) caught by the
`except Exception` block and replaced by a `RuntimeError`. -/
def evaluate_latex_num (o : Oracle) (limit : Option Nat) (elapsed : Nat)
    (exp : String) (maxn : Nat) : Except PyExc ℚ × Nat :=
  match runCall limit elapsed (o.parse exp) with
  | (Except.error _, e1) =>
      (Except.error (PyExc.runtimeError "Failed to numerically evaluate expression."), e1)
  | (Except.ok t, e1) =>
      match runCall limit e1 (o.numEval t maxn) with
      | (Except.error _, e2) =>
          (Except.error (PyExc.runtimeError "Failed to numerically evaluate expression."), e2)
      | (Except.ok q, e2) => (Except.ok q, e2)

/-- `evaluate_latex(exp, mode='symbolic')` body: `parse_latex(exp)` returned
unchanged, with any exception caught and replaced by a `RuntimeError`. -/
def evaluate_latex_sym (o : Oracle) (limit : Option Nat) (elapsed : Nat)
    (exp : String) : Except PyExc Tree × Nat :=
  match runCall limit elapsed (o.parse exp) with
  | (Except.error _, e1) =>
      (Except.error (PyExc.runtimeError "Failed to symbolically simplify."), e1)
  | (Except.ok t, e1) => (Except.ok t, e1)

/-- `evaluate_latex(exp, mode, maxn)`: dispatch on the `mode` string; an
unrecognized mode raises `LookupError`. -/
def evaluate_latex (o : Oracle) (limit : Option Nat) (elapsed : Nat)
    (exp : String) (mode : String) (maxn : Nat) : Except PyExc Value × Nat :=
  if mode = "numeric" then
    match evaluate_latex_num o limit elapsed exp maxn with
    | (Except.error e, e1) => (Except.error e, e1)
    | (Except.ok q, e1) => (Except.ok (Value.num q), e1)
  else if mode = "symbolic" then
    match evaluate_latex_sym o limit elapsed exp with
    | (Except.error e, e1) => (Except.error e, e1)
    | (Except.ok t, e1) => (Except.ok (Value.sym t), e1)
  else
    (Except.error (PyExc.lookupError ("Invalid mode \"" ++ mode ++ "\". ")), elapsed)

/-- Helper for `longestDigitRun`: fold over the characters tracking the
current run of decimal digits and the best run seen so far. -/
def digitRunAux : List Char → Nat → Nat → Nat
  | [], cur, best => max cur best
  | ch :: cs, cur, best =>
      if ch.isDigit then digitRunAux cs (cur + 1) best
      else digitRunAux cs 0 (max cur best)

/-- Length of the longest maximal run of decimal digits in a string.  This is
the value of `len(max(re.split(r'\D+', exp2), key=len))` in `comp_exp_latex`:
splitting on maximal non-digit runs yields exactly the maximal digit runs
(plus empty strings at the borders), so the longest piece is the longest
digit run (length 0 when the string has no digit). -/
def longestDigitRun (s : String) : Nat :=
  digitRunAux s.data 0 0

/-- Absolute value of a rational, written so that it evaluates by kernel
reduction (sympy's `Abs` on an explicit number). -/
def ratAbs (q : ℚ) : ℚ := if q < 0 then -q else q

theorem ratAbs_eq_abs (q : ℚ) : ratAbs q = |q| := by
  unfold ratAbs
  by_cases h : q < 0
  · rw [if_pos h, abs_of_neg h]
  · rw [if_neg h, abs_of_nonneg (le_of_not_lt h)]

/-- Exact subtraction of two sympy numbers, written so that it evaluates by
kernel reduction. -/
def ratSub (a b : ℚ) : ℚ := mkRat (a.num * b.den - b.num * a.den) (a.den * b.den)

theorem ratSub_eq_sub (a b : ℚ) : ratSub a b = a - b := by
  have ha : (a.den : ℚ) ≠ 0 := Nat.cast_ne_zero.mpr a.den_nz
  have hb : (b.den : ℚ) ≠ 0 := Nat.cast_ne_zero.mpr b.den_nz
  unfold ratSub
  rw [Rat.mkRat_eq_div]
  conv_rhs => rw [← Rat.num_div_den a, ← Rat.num_div_den b]
  rw [div_sub_div _ _ ha hb]
  push_cast
  ring_nf

/-- The literal `0.1` of the source, in kernel-computable form. -/
def codeTenth : ℚ := mkRat 1 10

/-- The literal `1.1` of the source, in kernel-computable form. -/
def codeElevenTenths : ℚ := mkRat 11 10

theorem codeTenth_eq : codeTenth = 1/10 := by
  unfold codeTenth
  rw [Rat.mkRat_eq_div]
  norm_num

theorem codeElevenTenths_eq : codeElevenTenths = 11/10 := by
  unfold codeElevenTenths
  rw [Rat.mkRat_eq_div]
  norm_num

/-- The comparator's output mapping: `1.1 if suspicious else 1` when
equivalent, `0.1 if suspicious else 0` otherwise (as the literal Python
floats, modelled as rationals). -/
def outcodeOf (equiv suspicious : Bool) : ℚ :=
  if equiv then (if suspicious then codeElevenTenths else 1)
  else (if suspicious then codeTenth else 0)

/-- `Abs(sympy_exp - exp1) <= numeric_threshold` where `sympy_exp` is the
candidate's numeric value and `exp1` the pre-evaluated reference.  When the
reference is itself a number this is exact sympy arithmetic on two explicit
numbers (negligible cost); when it is a symbolic tree the behaviour is
whatever sympy does with the resulting relational, an external call. -/
def absLeValue (o : Oracle) (limit : Option Nat) (elapsed : Nat)
    (q : ℚ) (exp1 : Value) (numeric_threshold : ℚ) : Except PyExc Bool × Nat :=
  match exp1 with
  | Value.num r => (Except.ok (decide (ratAbs (ratSub q r) ≤ numeric_threshold)), elapsed)
  | Value.sym t => runCall limit elapsed (o.mixedAbsLe q t numeric_threshold)

/-- `comp_exp_latex(exp1, exp2, mode, maxn, suspicious_threshold,
numeric_threshold)`: the suspiciousness heuristic on the raw candidate text,
then mode dispatch.  In each mode the whole body (candidate evaluation plus
the equivalence test) sits in a `try` whose `except Exception` replaces any
exception — including a `TimeoutException` raised by the alarm — with a
`RuntimeError`. -/
def comp_exp_latex (o : Oracle) (limit : Option Nat) (elapsed : Nat)
    (exp1 : Value) (exp2 : String) (mode : String) (maxn : Nat)
    (suspicious_threshold : Nat) (numeric_threshold : ℚ) :
    Except PyExc ℚ × Nat :=
  let suspicious := decide (suspicious_threshold ≤ longestDigitRun exp2)
  if mode = "numeric" then
    match evaluate_latex_num o limit elapsed exp2 maxn with
    | (Except.error _, e1) =>
        (Except.error (PyExc.runtimeError "Failed to numerically compare expressions."), e1)
    | (Except.ok q, e1) =>
        match absLeValue o limit e1 q exp1 numeric_threshold with
        | (Except.error _, e2) =>
            (Except.error (PyExc.runtimeError "Failed to numerically compare expressions."), e2)
        | (Except.ok equiv, e2) => (Except.ok (outcodeOf equiv suspicious), e2)
  else if mode = "symbolic" then
    match evaluate_latex_sym o limit elapsed exp2 with
    | (Except.error _, e1) =>
        (Except.error (PyExc.runtimeError "Failed to symbolically compare expressions."), e1)
    | (Except.ok t, e1) =>
        match runCall limit e1 (o.zeroTest t exp1) with
        | (Except.error _, e2) =>
            (Except.error (PyExc.runtimeError "Failed to symbolically compare expressions."), e2)
        | (Except.ok equiv, e2) => (Except.ok (outcodeOf equiv suspicious), e2)
  else
    (Except.error (PyExc.lookupError ("Invalid mode \"" ++ mode ++ "\". ")), elapsed)

/-- One iteration of the `comp_exp_list` loop, as the list of codes it appends
to `out` (so the unreachable fall-through where `mode` is neither recognized
string appends nothing).  An empty candidate appends `0` before the
`time_limit` context is entered; otherwise `comp_exp_latex` runs under
`with time_limit(1)` — the source hardcodes `1`, not `exec_limit` — with a
fresh alarm per candidate, and `except TimeoutException` maps a raised
`TimeoutException` to `2` while `except Exception` maps any other exception
to `3`.  In the symbolic branch the source passes only `suspicious_threshold`,
leaving `maxn` and `numeric_threshold` at their defaults `100` and `0`. -/
def gradeOne (o : Oracle) (mode : String) (correct_exp : Value)
    (maxn suspicious_threshold : Nat) (numeric_threshold : ℚ)
    (exp1 : String) : List ℚ :=
  if exp1.length = 0 then [0]
  else
    match (if mode = "numeric" then
             some (comp_exp_latex o (some 1) 0 correct_exp exp1 "numeric" maxn
               suspicious_threshold numeric_threshold)
           else if mode = "symbolic" then
             some (comp_exp_latex o (some 1) 0 correct_exp exp1 "symbolic" 100
               suspicious_threshold 0)
           else none) with
    | none => []
    | some (Except.ok c, _) => [c]
    | some (Except.error PyExc.timeoutExc, _) => [2]
    | some (Except.error _, _) => [3]

/-- `comp_exp_list(exp, exp_list, mode, exec_limit, maxn,
suspicious_threshold, numeric_threshold)`: reject unrecognized modes with a
`RuntimeError`, evaluate the correct answer once via
`correct_exp = evaluate_latex(exp)` — the source passes neither `mode` nor
`maxn`, so the reference is always evaluated in numeric mode at the default
precision 100, with no alarm armed — then grade each candidate in order.
`exec_limit` is accepted but never used by the body. -/
def comp_exp_list (o : Oracle) (exp : String) (exp_list : List String)
    (mode : String) (exec_limit maxn suspicious_threshold : Nat)
    (numeric_threshold : ℚ) : Except PyExc (List ℚ) :=
  if mode ≠ "numeric" ∧ mode ≠ "symbolic" then
    Except.error (PyExc.runtimeError "Invalid mode")
  else
    match evaluate_latex o none 0 exp "numeric" 100 with
    | (Except.error e, _) => Except.error e
    | (Except.ok correct_exp, _) =>
        Except.ok (exp_list.flatMap
          (gradeOne o mode correct_exp maxn suspicious_threshold numeric_threshold))

/-- The `comp_exp_latex` call made by the `comp_exp_list` loop for a
non-empty candidate, as a function of the request's `mode` (which the guard
at the top of `comp_exp_list` restricts to `"numeric"` or `"symbolic"`). -/
def candCompare (o : Oracle) (mode : String) (correct_exp : Value)
    (maxn suspicious_threshold : Nat) (numeric_threshold : ℚ)
    (exp1 : String) : Except PyExc ℚ × Nat :=
  if mode = "numeric" then
    comp_exp_latex o (some 1) 0 correct_exp exp1 "numeric" maxn
      suspicious_threshold numeric_threshold
  else
    comp_exp_latex o (some 1) 0 correct_exp exp1 "symbolic" 100
      suspicious_threshold 0

/-- The `except` clauses of the `comp_exp_list` loop: a raised
`TimeoutException` becomes `2`, any other exception becomes `3`. -/
def absorbCode : Except PyExc ℚ → ℚ
  | Except.ok c => c
  | Except.error PyExc.timeoutExc => 2
  | Except.error _ => 3

/-- The single outcome code the `comp_exp_list` loop produces for one
candidate, for a recognized mode: `0` for the empty string, otherwise the
comparison result with exceptions absorbed into `2`/`3`. -/
def gradeScalar (o : Oracle) (mode : String) (correct_exp : Value)
    (maxn suspicious_threshold : Nat) (numeric_threshold : ℚ)
    (exp1 : String) : ℚ :=
  if exp1.length = 0 then 0
  else absorbCode
    (candCompare o mode correct_exp maxn suspicious_threshold numeric_threshold exp1).1

/-- A concrete instantiation of the external collaborators, used to evaluate
the embedded grader on concrete requests: `"slow"` is a candidate whose
parse takes 5 seconds of wall-clock time, `"bad"` one whose parse raises,
`"r"` and every other string parse instantly; every numeric evaluation gives
`1/2`; the symbolic zero-test attests equivalence exactly when the reference
it receives is a symbolic form (and denies it for a numeric reference). -/
def testO : Oracle where
  parse s :=
    if s = "slow" then { cost := 5, result := Except.ok ⟨2⟩ }
    else if s = "bad" then { cost := 0, result := Except.error PyExc.otherExc }
    else if s = "r" then { cost := 0, result := Except.ok ⟨0⟩ }
    else { cost := 0, result := Except.ok ⟨1⟩ }
  numEval _ _ := { cost := 0, result := Except.ok (mkRat 1 2) }
  zeroTest _ v :=
    { cost := 0,
      result := Except.ok (match v with | Value.num _ => false | Value.sym _ => true) }
  mixedAbsLe _ _ _ := { cost := 0, result := Except.ok false }

/-! ### Bridge lemmas between the loop body and its per-candidate code -/

theorem gradeOne_eq_of_numeric (o : Oracle) (v : Value) (maxn st : Nat) (nt : ℚ)
    (exp1 : String) :
    gradeOne o "numeric" v maxn st nt exp1 = [gradeScalar o "numeric" v maxn st nt exp1] := by
  unfold gradeOne gradeScalar candCompare
  by_cases h : exp1.length = 0
  · simp [h]
  · rcases hc : comp_exp_latex o (some 1) 0 v exp1 "numeric" maxn st nt with ⟨r, t⟩
    rcases r with e | c
    · rcases e <;> simp [h, hc, absorbCode]
    · simp [h, hc, absorbCode]

theorem gradeOne_eq_of_symbolic (o : Oracle) (v : Value) (maxn st : Nat) (nt : ℚ)
    (exp1 : String) :
    gradeOne o "symbolic" v maxn st nt exp1 = [gradeScalar o "symbolic" v maxn st nt exp1] := by
  unfold gradeOne gradeScalar candCompare
  by_cases h : exp1.length = 0
  · simp [h]
  · rcases hc : comp_exp_latex o (some 1) 0 v exp1 "symbolic" 100 st 0 with ⟨r, t⟩
    rcases r with e | c
    · rcases e <;> simp [h, hc, absorbCode]
    · simp [h, hc, absorbCode]

theorem gradeOne_eq (o : Oracle) (mode : String) (v : Value) (maxn st : Nat) (nt : ℚ)
    (exp1 : String) (hmode : mode = "numeric" ∨ mode = "symbolic") :
    gradeOne o mode v maxn st nt exp1 = [gradeScalar o mode v maxn st nt exp1] := by
  rcases hmode with h | h <;> subst h
  · exact gradeOne_eq_of_numeric o v maxn st nt exp1
  · exact gradeOne_eq_of_symbolic o v maxn st nt exp1

/-- For a recognized mode and a successfully evaluated reference, the batch
result is the per-candidate map. -/
theorem comp_exp_list_eq_map (o : Oracle) (exp : String) (l : List String)
    (mode : String) (exec_limit maxn st : Nat) (nt : ℚ)
    (hmode : mode = "numeric" ∨ mode = "symbolic") (v : Value) (t : Nat)
    (href : evaluate_latex o none 0 exp "numeric" 100 = (Except.ok v, t)) :
    comp_exp_list o exp l mode exec_limit maxn st nt =
      Except.ok (l.map (gradeScalar o mode v maxn st nt)) := by
  unfold comp_exp_list
  have hm : ¬ (mode ≠ "numeric" ∧ mode ≠ "symbolic") := by
    rcases hmode with h | h <;> simp [h]
  rw [if_neg hm, href]
  show Except.ok (l.flatMap (gradeOne o mode v maxn st nt)) = _
  congr 1
  induction l with
  | nil => rfl
  | cons a as ih =>
      rw [List.flatMap_cons, List.map_cons, gradeOne_eq o mode v maxn st nt a hmode, ih]
      rfl

/-! ### Claim theorems -/

/-- C1: the claim says the correct answer is evaluated via the Expression
Evaluator *in the requested mode*, so that in symbolic mode a numeric result
is never compared against a symbolic one.  The code violates this:
`comp_exp_list` line 122 calls `evaluate_latex(exp)` with its default
arguments, so the reference is always evaluated in numeric mode (at the
default precision 100).  Here, in symbolic mode, the zero-test receives the
numeric reference `1/2` and denies equivalence (outcome `0`), although the
same oracle's zero-test attests equivalence against the reference's symbolic
form (which the requested-mode evaluation would have produced). -/
theorem symbolic_reference_evaluated_numerically :
    comp_exp_list testO "r" ["c"] "symbolic" 1 100 6 0 = Except.ok [0] ∧
    (testO.zeroTest ⟨1⟩ (Value.sym ⟨0⟩)).result = Except.ok true := by
  constructor <;> rfl

/-- C2: the claim says the per-candidate deadline equals the request's
`exec_limit` (so a 5-second evaluation completes under `exec_limit = 10`).
The code hardcodes `with time_limit(1)`, ignoring `exec_limit`: the
candidate `"slow"` (5-second parse) is interrupted and coded as a failure
even with `exec_limit = 10`, and the batch output is identical for
`exec_limit = 10` and `exec_limit = 1`. -/
theorem exec_limit_ignored :
    comp_exp_list testO "r" ["slow"] "numeric" 10 100 6 0 = Except.ok [3] ∧
    comp_exp_list testO "r" ["slow"] "numeric" 10 100 6 0 =
      comp_exp_list testO "r" ["slow"] "numeric" 1 100 6 0 := by
  constructor <;> rfl

/-- C3: the claim says a candidate whose evaluation exceeds the time budget
is coded `TIMED_OUT` (2), never `ERRORED` (3).  In the code the
`TimeoutException` raised by the alarm inside `evaluate_latex`'s
`try` is caught by `except Exception` and re-raised as `RuntimeError`, so
`comp_exp_list`'s `except TimeoutException` never fires for an evaluation
timeout: the slow candidate is coded `3`, not `2`.  The second part of the
claim holds: the following candidate is still graded normally (`1`). -/
theorem evaluation_timeout_coded_errored :
    comp_exp_list testO "r" ["slow", "c"] "numeric" 1 100 6 0 = Except.ok [3, 1] := by
  decide

/-- C4: for every valid request (recognized mode, reference that evaluates
successfully) the batch result is exactly the per-candidate map — one
outcome per candidate, in input order — so its length equals the number of
candidates and the i-th outcome is the grade of the i-th candidate. -/
theorem grade_batch_length_and_order (o : Oracle) (exp : String) (l : List String)
    (mode : String) (exec_limit maxn st : Nat) (nt : ℚ)
    (hmode : mode = "numeric" ∨ mode = "symbolic") (v : Value) (t : Nat)
    (href : evaluate_latex o none 0 exp "numeric" 100 = (Except.ok v, t)) :
    ∃ out, comp_exp_list o exp l mode exec_limit maxn st nt = Except.ok out ∧
      ∃ hlen : out.length = l.length,
        ∀ i : Fin l.length, out.get (Fin.cast hlen.symm i) =
          gradeScalar o mode v maxn st nt (l.get i) := by
  refine ⟨l.map (gradeScalar o mode v maxn st nt),
    comp_exp_list_eq_map o exp l mode exec_limit maxn st nt hmode v t href, by simp, ?_⟩
  intro i
  simp

/-- C7: `comp_exp_list` raises (returns an `Except.error`) in exactly two
cases — the mode is neither `"numeric"` nor `"symbolic"`, or the reference
answer fails to evaluate; otherwise it returns a list of per-item codes, so
no error is ever converted into a per-candidate outcome code. -/
theorem grade_batch_error_iff (o : Oracle) (exp : String) (l : List String)
    (mode : String) (exec_limit maxn st : Nat) (nt : ℚ) :
    (∃ e, comp_exp_list o exp l mode exec_limit maxn st nt = Except.error e) ↔
      ((mode ≠ "numeric" ∧ mode ≠ "symbolic") ∨
        ∃ e t, evaluate_latex o none 0 exp "numeric" 100 = (Except.error e, t)) := by
  unfold comp_exp_list
  by_cases hm : mode ≠ "numeric" ∧ mode ≠ "symbolic"
  · simp [hm]
  · rw [if_neg hm]
    rcases h : evaluate_latex o none 0 exp "numeric" 100 with ⟨r, t⟩
    rcases r with e | v
    · simp [hm, h]
    · simp [hm, h]

/-- C5: a candidate that is the empty string, at any position, is graded
`NOT_EQUIVALENT` (`0`); and grading an empty candidate is `0` for every
oracle, mode and parameters — the comparator and the per-item timer are
never consulted for it, so it can never be coded errored, timed-out or
suspicious. -/
theorem empty_candidate_not_equivalent (o : Oracle) (exp : String) (l : List String)
    (mode : String) (exec_limit maxn st : Nat) (nt : ℚ)
    (hmode : mode = "numeric" ∨ mode = "symbolic") (v : Value) (t : Nat)
    (href : evaluate_latex o none 0 exp "numeric" 100 = (Except.ok v, t))
    (i : Nat) (hi : i < l.length) (hempty : l.get ⟨i, hi⟩ = "") :
    (∃ out, comp_exp_list o exp l mode exec_limit maxn st nt = Except.ok out ∧
       ∃ hil : i < out.length, out.get ⟨i, hil⟩ = 0) ∧
    ∀ (o' : Oracle) (mode' : String) (v' : Value) (maxn' st' : Nat) (nt' : ℚ),
      gradeScalar o' mode' v' maxn' st' nt' "" = 0 := by
  constructor
  · refine ⟨l.map (gradeScalar o mode v maxn st nt),
      comp_exp_list_eq_map o exp l mode exec_limit maxn st nt hmode v t href,
      by simpa using hi, ?_⟩
    have hgi : l.get ⟨i, hi⟩ = "" := hempty
    simp only [List.get_eq_getElem, List.getElem_map]
    simp only [List.get_eq_getElem] at hgi
    rw [hgi]
    rfl
  · intro o' mode' v' maxn' st' nt'
    rfl

/-- C6: in numeric mode, for a candidate that evaluates successfully to `q`,
the comparator returns an equivalent code (`1` or `1.1`) iff
`|q - reference| ≤ numeric_threshold`, and a suspicious code (`0.1` or `1.1`)
iff the longest digit run of the raw candidate text reaches
`suspicious_threshold` — the latter independent of the numeric outcome and
of evaluation. -/
theorem numeric_compare_characterization (o : Oracle) (limit : Option Nat)
    (elapsed : Nat) (r : ℚ) (c : String) (maxn st : Nat) (nt : ℚ) (q : ℚ) (e1 : Nat)
    (heval : evaluate_latex_num o limit elapsed c maxn = (Except.ok q, e1)) :
    ∃ code : ℚ,
      comp_exp_latex o limit elapsed (Value.num r) c "numeric" maxn st nt =
        (Except.ok code, e1) ∧
      ((code = 1 ∨ code = 11/10) ↔ |q - r| ≤ nt) ∧
      ((code = 1/10 ∨ code = 11/10) ↔ st ≤ longestDigitRun c) := by
  have hrun : comp_exp_latex o limit elapsed (Value.num r) c "numeric" maxn st nt =
      (Except.ok (outcodeOf (decide (ratAbs (ratSub q r) ≤ nt))
        (decide (st ≤ longestDigitRun c))), e1) := by
    unfold comp_exp_latex
    rw [if_pos rfl, heval]
    rfl
  refine ⟨_, hrun, ?_, ?_⟩ <;>
    rw [ratSub_eq_sub, ratAbs_eq_abs] <;>
    by_cases h1 : |q - r| ≤ nt <;> by_cases h2 : st ≤ longestDigitRun c <;>
    simp [h1, h2, outcodeOf, codeTenth_eq, codeElevenTenths_eq] <;> norm_num

/-- C8: a non-empty candidate whose comparison raises an error other than a
`TimeoutException` is coded `ERRORED` (`3`), and the batch call still
returns, with every other candidate graded by its own result. -/
theorem candidate_error_coded_errored (o : Oracle) (exp : String)
    (l1 l2 : List String) (c : String) (mode : String)
    (exec_limit maxn st : Nat) (nt : ℚ)
    (hmode : mode = "numeric" ∨ mode = "symbolic") (v : Value) (t : Nat)
    (href : evaluate_latex o none 0 exp "numeric" 100 = (Except.ok v, t))
    (hne : ¬ c.length = 0) (e : PyExc) (tc : Nat)
    (hcomp : candCompare o mode v maxn st nt c = (Except.error e, tc))
    (hnt : e ≠ PyExc.timeoutExc) :
    gradeScalar o mode v maxn st nt c = 3 ∧
    comp_exp_list o exp (l1 ++ c :: l2) mode exec_limit maxn st nt =
      Except.ok (l1.map (gradeScalar o mode v maxn st nt) ++
        3 :: l2.map (gradeScalar o mode v maxn st nt)) := by
  have h3 : gradeScalar o mode v maxn st nt c = 3 := by
    unfold gradeScalar
    rw [if_neg hne, hcomp]
    cases e with
    | timeoutExc => exact absurd rfl hnt
    | runtimeError m => rfl
    | lookupError m => rfl
    | otherExc => rfl
  refine ⟨h3, ?_⟩
  rw [comp_exp_list_eq_map o exp (l1 ++ c :: l2) mode exec_limit maxn st nt hmode v t href,
    List.map_append, List.map_cons, h3]

/-- C9: `comp_exp_list` is deterministic — with external collaborators that
behave identically on identical inputs, two calls with the same request
yield the same outcome sequence. -/
theorem grade_batch_deterministic (o₁ o₂ : Oracle) (exp : String) (l : List String)
    (mode : String) (exec_limit maxn st : Nat) (nt : ℚ)
    (hp : ∀ s, o₁.parse s = o₂.parse s)
    (hn : ∀ t n, o₁.numEval t n = o₂.numEval t n)
    (hz : ∀ t v, o₁.zeroTest t v = o₂.zeroTest t v)
    (hx : ∀ q t τ, o₁.mixedAbsLe q t τ = o₂.mixedAbsLe q t τ) :
    comp_exp_list o₁ exp l mode exec_limit maxn st nt =
      comp_exp_list o₂ exp l mode exec_limit maxn st nt := by
  have ho : o₁ = o₂ := by
    obtain ⟨p₁, n₁, z₁, x₁⟩ := o₁
    obtain ⟨p₂, n₂, z₂, x₂⟩ := o₂
    congr 1
    · funext s
      exact hp s
    · funext a b
      exact hn a b
    · funext a b
      exact hz a b
    · funext a b d
      exact hx a b d
  rw [ho]

theorem digitRunAux_no_digit (l : List Char) (h : ∀ ch ∈ l, ch.isDigit = false) :
    digitRunAux l 0 0 = 0 := by
  induction l with
  | nil => rfl
  | cons ch cs ih =>
      have hch : ch.isDigit = false := h ch (by simp)
      have hcs : ∀ x ∈ cs, x.isDigit = false := fun x hx => h x (by simp [hx])
      unfold digitRunAux
      simp [hch, ih hcs]

theorem longestDigitRun_no_digit (s : String) (h : ∀ ch ∈ s.data, ch.isDigit = false) :
    longestDigitRun s = 0 :=
  digitRunAux_no_digit s.data h

/-- Every successful result of `comp_exp_latex` is the output mapping applied
to some equivalence verdict and the digit-run suspiciousness of the raw
candidate text. -/
theorem comp_exp_latex_ok_code (o : Oracle) (limit : Option Nat) (elapsed : Nat)
    (exp1 : Value) (exp2 : String) (mode : String) (maxn st : Nat) (nt : ℚ)
    (code : ℚ) (t : Nat)
    (h : comp_exp_latex o limit elapsed exp1 exp2 mode maxn st nt = (Except.ok code, t)) :
    ∃ equiv : Bool, code = outcodeOf equiv (decide (st ≤ longestDigitRun exp2)) := by
  unfold comp_exp_latex at h
  split at h
  · split at h
    · simp at h
    · split at h
      · simp at h
      · simp only [Prod.mk.injEq, Except.ok.injEq] at h
        exact ⟨_, h.1.symm⟩
  · split at h
    · split at h
      · simp at h
      · split at h
        · simp at h
        · simp only [Prod.mk.injEq, Except.ok.injEq] at h
          exact ⟨_, h.1.symm⟩
    · simp at h

/-- C10: a candidate containing no decimal digit has longest digit run `0`,
so for any positive suspicious threshold the comparator can never give it a
suspicious code (`0.1` or `1.1`), in any mode. -/
theorem no_digit_never_suspicious (o : Oracle) (limit : Option Nat) (elapsed : Nat)
    (exp1 : Value) (c : String) (mode : String) (maxn st : Nat) (nt : ℚ)
    (hnd : ∀ ch ∈ c.data, ch.isDigit = false) (hst : 1 ≤ st)
    (code : ℚ) (t : Nat)
    (h : comp_exp_latex o limit elapsed exp1 c mode maxn st nt = (Except.ok code, t)) :
    longestDigitRun c < st ∧ code ≠ 1/10 ∧ code ≠ 11/10 := by
  have hrun : longestDigitRun c = 0 := longestDigitRun_no_digit c hnd
  obtain ⟨equiv, hcode⟩ :=
    comp_exp_latex_ok_code o limit elapsed exp1 c mode maxn st nt code t h
  have hsusp : decide (st ≤ longestDigitRun c) = false := by
    simp [hrun]
    omega
  rw [hsusp] at hcode
  refine ⟨by omega, ?_, ?_⟩ <;> rw [hcode] <;> cases equiv <;>
    simp [outcodeOf, codeTenth_eq, codeElevenTenths_eq] <;> norm_num

/-! ### Concrete witnesses instantiating the hypothesis-bearing theorems -/

theorem grade_batch_length_and_order_witness :
    evaluate_latex testO none 0 "r" "numeric" 100 =
      (Except.ok (Value.num (mkRat 1 2)), 0) ∧
    ∃ out, comp_exp_list testO "r" ["c", ""] "numeric" 1 100 6 0 = Except.ok out ∧
      ∃ hlen : out.length = (["c", ""] : List String).length,
        ∀ i : Fin (["c", ""] : List String).length,
          out.get (Fin.cast hlen.symm i) =
            gradeScalar testO "numeric" (Value.num (mkRat 1 2)) 100 6 0
              ((["c", ""] : List String).get i) :=
  ⟨by decide,
   grade_batch_length_and_order testO "r" ["c", ""] "numeric" 1 100 6 0
     (Or.inl rfl) (Value.num (mkRat 1 2)) 0 (by decide)⟩

theorem empty_candidate_not_equivalent_witness :
    (1 < (["c", ""] : List String).length) ∧
    ((["c", ""] : List String).get ⟨1, by decide⟩ = "") ∧
    ((∃ out, comp_exp_list testO "r" ["c", ""] "numeric" 1 100 6 0 = Except.ok out ∧
        ∃ hil : 1 < out.length, out.get ⟨1, hil⟩ = 0) ∧
      ∀ (o' : Oracle) (mode' : String) (v' : Value) (maxn' st' : Nat) (nt' : ℚ),
        gradeScalar o' mode' v' maxn' st' nt' "" = 0) :=
  ⟨by decide, by decide,
   empty_candidate_not_equivalent testO "r" ["c", ""] "numeric" 1 100 6 0
     (Or.inl rfl) (Value.num (mkRat 1 2)) 0 (by decide) 1 (by decide) (by decide)⟩

theorem numeric_compare_characterization_witness :
    evaluate_latex_num testO none 0 "c" 100 = (Except.ok (mkRat 1 2), 0) ∧
    ∃ code : ℚ,
      comp_exp_latex testO none 0 (Value.num (mkRat 1 2)) "c" "numeric" 100 6 0 =
        (Except.ok code, 0) ∧
      ((code = 1 ∨ code = 11/10) ↔ |mkRat 1 2 - mkRat 1 2| ≤ (0 : ℚ)) ∧
      ((code = 1/10 ∨ code = 11/10) ↔ 6 ≤ longestDigitRun "c") :=
  ⟨by decide,
   numeric_compare_characterization testO none 0 (mkRat 1 2) "c" 100 6 0
     (mkRat 1 2) 0 (by decide)⟩

theorem candidate_error_coded_errored_witness :
    candCompare testO "numeric" (Value.num (mkRat 1 2)) 100 6 0 "bad" =
      (Except.error (PyExc.runtimeError "Failed to numerically compare expressions."), 0) ∧
    (gradeScalar testO "numeric" (Value.num (mkRat 1 2)) 100 6 0 "bad" = 3 ∧
      comp_exp_list testO "r" ([] ++ "bad" :: ["c"]) "numeric" 1 100 6 0 =
        Except.ok (List.map (gradeScalar testO "numeric" (Value.num (mkRat 1 2)) 100 6 0) [] ++
          3 :: List.map (gradeScalar testO "numeric" (Value.num (mkRat 1 2)) 100 6 0) ["c"])) :=
  ⟨by decide,
   candidate_error_coded_errored testO "r" [] ["c"] "bad" "numeric" 1 100 6 0
     (Or.inl rfl) (Value.num (mkRat 1 2)) 0 (by decide) (by decide)
     (PyExc.runtimeError "Failed to numerically compare expressions.") 0
     (by decide) (by decide)⟩

theorem grade_batch_deterministic_witness :
    comp_exp_list testO "r" ["c"] "numeric" 1 100 6 0 =
      comp_exp_list testO "r" ["c"] "numeric" 1 100 6 0 :=
  grade_batch_deterministic testO testO "r" ["c"] "numeric" 1 100 6 0
    (fun _ => rfl) (fun _ _ => rfl) (fun _ _ => rfl) (fun _ _ _ => rfl)

theorem no_digit_never_suspicious_witness :
    (∀ ch ∈ ("c" : String).data, ch.isDigit = false) ∧ 1 ≤ 6 ∧
    (longestDigitRun "c" < 6 ∧ (1 : ℚ) ≠ 1/10 ∧ (1 : ℚ) ≠ 11/10) :=
  ⟨by decide, by decide,
   no_digit_never_suspicious testO none 0 (Value.num (mkRat 1 2)) "c" "numeric" 100 6 0
     (by decide) (by decide) 1 0 (by decide)⟩

end Rbiter
